import Mathlib

/-!
Shallow embedding of the debate-orchestration program (`src/main.py`) in Lean 4.

Modelling conventions:
* Python `float` seconds are modelled as `Rat` (the program only ever adds,
  subtracts, divides and compares them).
* Python `int(x)` (truncation toward zero) is `pyInt`.
* Python list indexing `l[i]`, which supports negative indices and raises
  `IndexError` out of range, is `pyGet`; a raised exception is `none`.
* Python `str` utterance text is a list of characters (`PyStr`), so that
  slicing `text[:1000]` is `List.take 1000`.
* The evaluation backend (`self.llm.generate` followed by `json.loads`) is
  modelled by its observable outcome per attempt: `none` when the attempt
  raises (backend error or parse error), `some o` when a JSON object was
  parsed, with the three fields the code reads made optional (`dict.get`).
* Async effects irrelevant to data flow (announcements, sleeps, data-channel
  sends) are either dropped or returned as explicit result fields
  (`enabled`, `disabled`, broadcast messages).
-/

namespace DebateArena

/-- The four debater identities A, B (team T1) and C, D (team T2). -/
inductive Debater where
  | A | B | C | D
deriving DecidableEq, Repr

/-- A round's speaker specification: a single speaker id (a Python `str`)
or a list of ids (crossfire rounds). -/
inductive Speakers where
  | one : Debater → Speakers
  | many : List Debater → Speakers
deriving DecidableEq, Repr

/-- One entry of the `ROUNDS` table: `(round_name, duration_seconds, speakers)`. -/
structure RoundSpec where
  name : String
  duration : Int
  speakers : Speakers
deriving DecidableEq, Repr

/-- The default public-forum sequence, from the module-level `ROUNDS` list. -/
def ROUNDS : List RoundSpec := [
  ⟨"constructive_a", 4 * 60, .one .A⟩,
  ⟨"constructive_c", 4 * 60, .one .C⟩,
  ⟨"crossfire_ac", 3 * 60, .many [.A, .C]⟩,
  ⟨"rebuttal_b", 4 * 60, .one .B⟩,
  ⟨"rebuttal_d", 4 * 60, .one .D⟩,
  ⟨"crossfire_bd", 3 * 60, .many [.B, .D]⟩,
  ⟨"summary_a", 3 * 60, .one .A⟩,
  ⟨"summary_c", 3 * 60, .one .C⟩,
  ⟨"grand_crossfire", 3 * 60, .many [.A, .B, .C, .D]⟩,
  ⟨"final_focus_b", 2 * 60, .one .B⟩,
  ⟨"final_focus_d", 2 * 60, .one .D⟩]

/-- Python utterance text, as a sequence of characters. -/
abbrev PyStr := List Char

/-- Python list indexing `l[i]`: negative indices count from the end and an
index out of range raises (`none`). -/
def pyGet {α : Type} (l : List α) (i : Int) : Option α :=
  let j := if i < 0 then i + l.length else i
  if j < 0 then none else l.get? j.toNat

/-- Python `int(q)` on a rational: truncation toward zero. -/
def pyInt (q : Rat) : Int := q.num.tdiv q.den

/-- The `DebateState` dataclass. `scores` (a dict with exactly the keys
`"T1"` and `"T2"`) is split into its two entries; `prep_time` (keyed by
arbitrary team strings) and `transcripts` (nested dict keyed by round name,
then speaker) are association lists, the latter with the two keys paired. -/
structure DebateState where
  room_id : String
  mode : String
  round_index : Nat
  time_remaining : Rat
  roles : List (String × String)
  topic : String
  scores_T1 : List Int
  scores_T2 : List Int
  prep_time : List (String × Rat)
  transcripts : List ((String × String) × List PyStr)
  custom_rounds : Option (List RoundSpec)
deriving DecidableEq

/-- Dict lookup `d.get(k)` on an association list of prep times. -/
def dictGet (d : List (String × Rat)) (k : String) : Option Rat :=
  match d with
  | [] => none
  | e :: es => if e.1 = k then some e.2 else dictGet es k

/-- Dict store `d[k] = v` on an association list of prep times. -/
def dictSet (d : List (String × Rat)) (k : String) (v : Rat) : List (String × Rat) :=
  match d with
  | [] => [(k, v)]
  | e :: es => if e.1 = k then (e.1, v) :: es else e :: dictSet es k v

/-- Lookup of `transcripts[round][speaker]`, defaulting to the empty list
(the code creates missing levels before appending). -/
def transcriptsGet (d : List ((String × String) × List PyStr)) (k : String × String) :
    List PyStr :=
  match d with
  | [] => []
  | e :: es => if e.1 = k then e.2 else transcriptsGet es k

/-- Append of one utterance to `transcripts[round][speaker]`, creating the
entry when absent (`receive_transcript` lines 117-121). -/
def transcriptsAppend (d : List ((String × String) × List PyStr)) (k : String × String)
    (t : PyStr) : List ((String × String) × List PyStr) :=
  match d with
  | [] => [(k, [t])]
  | e :: es => if e.1 = k then (e.1, e.2 ++ [t]) :: es else e :: transcriptsAppend es k t

/-- One JSON record appended to the per-room, per-round transcript file by
`receive_transcript` (the `json.dump({speaker: text}, f)` call). -/
structure TranscriptFileRecord where
  room_id : String
  round_name : String
  speaker : String
  text : PyStr
deriving DecidableEq

/-- The `DebaterAgent.receive_transcript` tool: resolves the current round
name from `ROUNDS[round_index]` (raising out of range), appends
`text[:1000]` to the in-memory utterance list, and appends a record holding
`text` to the per-room, per-round file. -/
def receive_transcript (st : DebateState) (speaker : String) (text : PyStr) :
    Option (DebateState × TranscriptFileRecord) :=
  match pyGet ROUNDS (st.round_index : Int) with
  | none => none
  | some r =>
      some ({ st with
                transcripts := transcriptsAppend st.transcripts (r.name, speaker)
                  (text.take 1000) },
            ⟨st.room_id, r.name, speaker, text⟩)

/-- Observable outcome of one successful backend attempt: the parsed JSON
object, with the three fields the judge reads (`result.get`) optional. -/
structure EvalOutcome where
  T1 : Option Int
  T2 : Option Int
  explanation : Option String
deriving DecidableEq

/-- Clamp a raw score as the judge does: `min(max(x, 21), 30)`. -/
def clampScore (x : Int) : Int := min (max x 21) 30

/-- The retry loop of `evaluate_round` (lines 284-296): start from defaults
`(25, 25, "Default score")`, take the first of the (up to 3) attempts that
succeeds, clamping its scores and defaulting its fields; if all three raise,
the defaults survive with explanation `"Failed to evaluate round"`. -/
def attemptLoop (a1 a2 a3 : Option EvalOutcome) : Int × Int × String :=
  match a1, a2, a3 with
  | some r, _, _ =>
      (clampScore (r.T1.getD 25), clampScore (r.T2.getD 25),
       r.explanation.getD "No explanation provided")
  | none, some r, _ =>
      (clampScore (r.T1.getD 25), clampScore (r.T2.getD 25),
       r.explanation.getD "No explanation provided")
  | none, none, some r =>
      (clampScore (r.T1.getD 25), clampScore (r.T2.getD 25),
       r.explanation.getD "No explanation provided")
  | none, none, none => (25, 25, "Failed to evaluate round")

/-- One record of `JudgeAgent.score_history`. -/
structure ScoreRecord where
  round : String
  T1_score : Int
  T2_score : Int
  explanation : String
deriving DecidableEq

/-- The note `evaluate_round` appends to the explanation when a shortfall
penalty fires (the float format specifier is abstracted by `toString`). -/
def penaltyNote (shortfall : Rat) : String :=
  " Deducted " ++ toString shortfall ++ " points for early round end."

/-- The body of `JudgeAgent.evaluate_round`: run the retry loop, then apply
the shortfall penalty when `ROUNDS[state.round_index][1] == 3 * 60` and
`state.time_remaining < 0` (note: the code indexes `ROUNDS` at the state's
current `round_index`, and raises when that is out of range), then append a
record to `score_history`; returns the two scores and the new history. -/
def evaluate_round (a1 a2 a3 : Option EvalOutcome) (round_name : String)
    (st : DebateState) (hist : List ScoreRecord) :
    Option (Int × Int × List ScoreRecord) :=
  let base := attemptLoop a1 a2 a3
  match pyGet ROUNDS (st.round_index : Int) with
  | none => none
  | some r =>
      let fin :=
        if r.duration = 3 * 60 ∧ st.time_remaining < 0 then
          let shortfall : Rat := |st.time_remaining| / 30
          (max 21 (base.1 - pyInt shortfall), max 21 (base.2.1 - pyInt shortfall),
           base.2.2 ++ penaltyNote shortfall)
        else base
      some (fin.1, fin.2.1, hist ++ [⟨round_name, fin.1, fin.2.1, fin.2.2⟩])

/-- The broadcast `{"type": "scores", ...}` message sent by `score_round`. -/
structure ScoresMsg where
  round : String
  T1_score : Int
  T2_score : Int
  explanation : String
deriving DecidableEq

/-- The `JudgeAgent.score_round` tool: resolve the completed round from
`ROUNDS[round_index - 1]`, evaluate it, append one score to each team's
list, and broadcast the scores with the last history record's explanation.
An exception anywhere (in particular the `IndexError` inside
`evaluate_round`) aborts the whole call (`none`). -/
def score_round (a1 a2 a3 : Option EvalOutcome) (st : DebateState)
    (hist : List ScoreRecord) :
    Option (DebateState × List ScoreRecord × ScoresMsg) :=
  match pyGet ROUNDS ((st.round_index : Int) - 1) with
  | none => none
  | some r =>
      match evaluate_round a1 a2 a3 r.name st hist with
      | none => none
      | some (s1, s2, hist2) =>
          some ({ st with scores_T1 := st.scores_T1 ++ [s1],
                          scores_T2 := st.scores_T2 ++ [s2] },
                hist2,
                ⟨r.name, s1, s2, ((hist2.getLast?).map ScoreRecord.explanation).getD ""⟩)

/-- The speaking-toggle condition applied to a debater id in `start_round`:
`debater_id in ["C", "D"] or (mode == "single" and debater_id == "B")`. -/
def debaterEligible (mode : String) (d : Debater) : Bool :=
  decide (d = Debater.C ∨ d = Debater.D) || (decide (mode = "single") && decide (d = Debater.B))

/-- The iteration domain `speakers if is_crossfire else [speakers]`. -/
def speakerItems (sp : Speakers) : List Debater :=
  match sp with
  | .one d => [d]
  | .many l => l

/-- Recipients of the targeted `set_speaking: true` message (lines 190-195):
one loop over the iteration domain, guarded by the eligibility condition. -/
def enableTargets (mode : String) (sp : Speakers) : List Debater :=
  (speakerItems sp).filter (debaterEligible mode)

/-- Recipients of the targeted `set_speaking: false` message on expiry
(lines 213-226): the crossfire branch loops over the speakers, the
single-speaker branch tests the one id, both with the same guard. -/
def disableTargets (mode : String) (sp : Speakers) : List Debater :=
  match sp with
  | .many l => l.filter (debaterEligible mode)
  | .one d => if debaterEligible mode d then [d] else []

/-- Observable outcome of one `ModeratorAgent.start_round` call. The timer
loop runs in real time; `tr_end` is the value `time_remaining` holds when
the loop exits, taken as a parameter of the model. -/
structure StartRoundResult where
  finalized : Bool
  timer_started : Bool
  enabled : List Debater
  disabled : List Debater
  warned : Bool
  state : DebateState
deriving DecidableEq

/-- `ModeratorAgent.start_round`: with the active sequence (custom if set,
else `ROUNDS`), either finalize when `round_index >= len(rounds)` — leaving
the state untouched and starting no timer — or run the round: enable the
eligible speakers, run the timer (its final reading is `tr_end`), disable
the same eligible speakers, warn when a 3-minute round overran, and
increment `round_index` by one. -/
def start_round (st : DebateState) (tr_end : Rat) : StartRoundResult :=
  let rounds := st.custom_rounds.getD ROUNDS
  if h : st.round_index < rounds.length then
    let r := rounds.get ⟨st.round_index, h⟩
    { finalized := false
      timer_started := true
      enabled := enableTargets st.mode r.speakers
      disabled := disableTargets st.mode r.speakers
      warned := decide (r.duration = 3 * 60) && decide (tr_end < 0)
      state := { st with time_remaining := tr_end, round_index := st.round_index + 1 } }
  else
    { finalized := true, timer_started := false, enabled := [], disabled := [],
      warned := false, state := st }

/-- Outcome of a `request_prep_time` call, mirroring its three paths. -/
inductive PrepOutcome where
  | invalid_team
  | no_prep_remaining
  | granted : Rat → PrepOutcome
deriving DecidableEq

/-- `ModeratorAgent.request_prep_time`: reject an unknown team or an
exhausted (`<= 0`) budget with an announcement and no mutation; otherwise
consume `min(available, 2 * 60)` from the team's budget. (The subsequent
sleep and `start_round` call are modelled separately.) -/
def request_prep_time (st : DebateState) (team : String) : PrepOutcome × DebateState :=
  match dictGet st.prep_time team with
  | none => (.invalid_team, st)
  | some available =>
      if available ≤ 0 then (.no_prep_remaining, st)
      else
        let duration := min available (2 * 60)
        (.granted duration,
         { st with prep_time := dictSet st.prep_time team (available - duration) })

/-- The winner and averages computed by `JudgeAgent.finalize_scores` (the
`round(_, 2)` applied for reporting is the identity on the values the
claims test and is omitted). -/
structure FinalResult where
  winner : String
  T1_avg_score : Rat
  T2_avg_score : Rat
deriving DecidableEq

/-- `JudgeAgent.finalize_scores` (lines 334-337): each team's mean score,
`0` for an empty list, and the winner by strictly greater mean, else a tie. -/
def finalize_scores (st : DebateState) : FinalResult :=
  let avg_t1 : Rat :=
    if st.scores_T1 ≠ [] then (st.scores_T1.sum : Rat) / (st.scores_T1.length : Rat) else 0
  let avg_t2 : Rat :=
    if st.scores_T2 ≠ [] then (st.scores_T2.sum : Rat) / (st.scores_T2.length : Rat) else 0
  ⟨if avg_t1 > avg_t2 then "T1" else if avg_t2 > avg_t1 then "T2" else "Tie",
   avg_t1, avg_t2⟩

/-- A concrete `DebateState` with the given round index, time remaining and
score lists, used to instantiate the theorems. -/
def mkState (idx : Nat) (tr : Rat) (s1 s2 : List Int) : DebateState :=
  { room_id := "room1"
    mode := "multi"
    round_index := idx
    time_remaining := tr
    roles := [("T1", "Pro"), ("T2", "Con")]
    topic := "topic"
    scores_T1 := s1
    scores_T2 := s2
    prep_time := [("T1", 120), ("T2", 120)]
    transcripts := []
    custom_rounds := none }

/-! Helper lemmas about the embedded operations. -/

/-- When `ROUNDS[state.round_index]` is out of range, `evaluate_round`
propagates the `IndexError`. -/
lemma evaluate_round_raises (a1 a2 a3 : Option EvalOutcome) (rn : String)
    (st : DebateState) (hist : List ScoreRecord)
    (h : pyGet ROUNDS (st.round_index : Int) = none) :
    evaluate_round a1 a2 a3 rn st hist = none := by
  unfold evaluate_round
  rw [h]

/-- Closed form of `evaluate_round` when the shortfall-penalty branch fires. -/
lemma evaluate_round_penalty (a1 a2 a3 : Option EvalOutcome) (rn : String)
    (st : DebateState) (hist : List ScoreRecord) (r : RoundSpec) (p : Int)
    (h : pyGet ROUNDS (st.round_index : Int) = some r)
    (hd : r.duration = 3 * 60) (ht : st.time_remaining < 0)
    (hp : pyInt (|st.time_remaining| / 30) = p) :
    evaluate_round a1 a2 a3 rn st hist =
      some (max 21 ((attemptLoop a1 a2 a3).1 - p),
            max 21 ((attemptLoop a1 a2 a3).2.1 - p),
            hist ++ [⟨rn, max 21 ((attemptLoop a1 a2 a3).1 - p),
                      max 21 ((attemptLoop a1 a2 a3).2.1 - p),
                      (attemptLoop a1 a2 a3).2.2 ++ penaltyNote (|st.time_remaining| / 30)⟩]) := by
  unfold evaluate_round
  rw [h]
  simp only [hd, ht, eq_self_iff_true, true_and, and_true, and_self, if_true, hp]

/-- Closed form of `evaluate_round` when the shortfall-penalty branch does
not fire. -/
lemma evaluate_round_plain (a1 a2 a3 : Option EvalOutcome) (rn : String)
    (st : DebateState) (hist : List ScoreRecord) (r : RoundSpec)
    (h : pyGet ROUNDS (st.round_index : Int) = some r)
    (hnd : ¬(r.duration = 3 * 60 ∧ st.time_remaining < 0)) :
    evaluate_round a1 a2 a3 rn st hist =
      some ((attemptLoop a1 a2 a3).1, (attemptLoop a1 a2 a3).2.1,
            hist ++ [⟨rn, (attemptLoop a1 a2 a3).1, (attemptLoop a1 a2 a3).2.1,
                      (attemptLoop a1 a2 a3).2.2⟩]) := by
  unfold evaluate_round
  rw [h]
  simp only [if_neg hnd]

/-- The clamp `min(max(x, 21), 30)` lands in [21, 30]. -/
lemma clampScore_bounds (x : Int) : 21 ≤ clampScore x ∧ clampScore x ≤ 30 :=
  ⟨le_min (le_max_right x 21) (by norm_num), min_le_right _ _⟩

/-- Both scores produced by the retry loop are already clamped to [21, 30]. -/
lemma attemptLoop_bounds (a1 a2 a3 : Option EvalOutcome) :
    21 ≤ (attemptLoop a1 a2 a3).1 ∧ (attemptLoop a1 a2 a3).1 ≤ 30 ∧
    21 ≤ (attemptLoop a1 a2 a3).2.1 ∧ (attemptLoop a1 a2 a3).2.1 ≤ 30 := by
  rcases a1 with _ | r1
  · rcases a2 with _ | r2
    · rcases a3 with _ | r3
      · exact ⟨by decide, by decide, by decide, by decide⟩
      · exact ⟨(clampScore_bounds _).1, (clampScore_bounds _).2,
          (clampScore_bounds _).1, (clampScore_bounds _).2⟩
    · exact ⟨(clampScore_bounds _).1, (clampScore_bounds _).2,
        (clampScore_bounds _).1, (clampScore_bounds _).2⟩
  · exact ⟨(clampScore_bounds _).1, (clampScore_bounds _).2,
      (clampScore_bounds _).1, (clampScore_bounds _).2⟩

/-- Truncation toward zero of a nonnegative rational is nonnegative. -/
lemma pyInt_nonneg (q : Rat) (h : 0 ≤ q) : 0 ≤ pyInt q := by
  unfold pyInt
  exact Int.tdiv_nonneg (Rat.num_nonneg.mpr h) (Int.ofNat_nonneg q.den)

/-- Inversion for a successful `evaluate_round`: the scores are clamped and
exactly one record, carrying those scores, was appended to the history. -/
lemma evaluate_round_some_inv (a1 a2 a3 : Option EvalOutcome) (rn : String)
    (st : DebateState) (hist : List ScoreRecord) (s1 s2 : Int)
    (hist2 : List ScoreRecord)
    (h : evaluate_round a1 a2 a3 rn st hist = some (s1, s2, hist2)) :
    (21 ≤ s1 ∧ s1 ≤ 30) ∧ (21 ≤ s2 ∧ s2 ≤ 30) ∧
    ∃ e, hist2 = hist ++ [⟨rn, s1, s2, e⟩] := by
  have hb := attemptLoop_bounds a1 a2 a3
  cases hpg : pyGet ROUNDS (st.round_index : Int) with
  | none => rw [evaluate_round_raises a1 a2 a3 rn st hist hpg] at h; exact absurd h (by simp)
  | some r =>
      by_cases hc : r.duration = 3 * 60 ∧ st.time_remaining < 0
      · rw [evaluate_round_penalty a1 a2 a3 rn st hist r _ hpg hc.1 hc.2 rfl] at h
        have hpnn : 0 ≤ pyInt (|st.time_remaining| / 30) :=
          pyInt_nonneg _ (by positivity)
        simp only [Option.some.injEq, Prod.mk.injEq] at h
        obtain ⟨h1, h2, h3⟩ := h
        subst h1; subst h2; subst h3
        refine ⟨⟨le_max_left _ _, ?_⟩, ⟨le_max_left _ _, ?_⟩,
          ⟨(attemptLoop a1 a2 a3).2.2 ++ penaltyNote (|st.time_remaining| / 30), rfl⟩⟩ <;>
          · rw [max_le_iff]; omega
      · rw [evaluate_round_plain a1 a2 a3 rn st hist r hpg hc] at h
        simp only [Option.some.injEq, Prod.mk.injEq] at h
        obtain ⟨h1, h2, h3⟩ := h
        subst h1; subst h2; subst h3
        exact ⟨⟨hb.1, hb.2.1⟩, ⟨hb.2.2.1, hb.2.2.2⟩, ⟨(attemptLoop a1 a2 a3).2.2, rfl⟩⟩

/-- Inversion for a successful `score_round`: it resolved the completed
round from `ROUNDS[round_index - 1]`, evaluated it, appended one score per
team, and broadcast exactly the evaluated scores. -/
lemma score_round_some_inv (a1 a2 a3 : Option EvalOutcome) (st : DebateState)
    (hist : List ScoreRecord) (st2 : DebateState) (hist2 : List ScoreRecord)
    (msg : ScoresMsg)
    (h : score_round a1 a2 a3 st hist = some (st2, hist2, msg)) :
    ∃ r, pyGet ROUNDS ((st.round_index : Int) - 1) = some r ∧
      evaluate_round a1 a2 a3 r.name st hist = some (msg.T1_score, msg.T2_score, hist2) ∧
      st2 = { st with scores_T1 := st.scores_T1 ++ [msg.T1_score],
                      scores_T2 := st.scores_T2 ++ [msg.T2_score] } ∧
      msg.round = r.name := by
  cases hpg : pyGet ROUNDS ((st.round_index : Int) - 1) with
  | none =>
      unfold score_round at h
      rw [hpg] at h
      exact absurd h (by simp)
  | some r =>
      cases hev : evaluate_round a1 a2 a3 r.name st hist with
      | none =>
          unfold score_round at h
          simp only [hpg, hev] at h
          exact absurd h (by simp)
      | some t =>
          obtain ⟨s1, s2, hist3⟩ := t
          unfold score_round at h
          simp only [hpg, hev, Option.some.injEq, Prod.mk.injEq] at h
          obtain ⟨h1, h2, h3⟩ := h
          subst h1; subst h2; subst h3
          exact ⟨r, rfl, hev, rfl, rfl⟩

/-- When a round actually starts, `start_round` bumps `round_index` by one,
stores the timer's final reading, and leaves every other field alone. -/
lemma start_round_go (st : DebateState) (tr_end : Rat)
    (h : st.round_index < (st.custom_rounds.getD ROUNDS).length) :
    start_round st tr_end =
      { finalized := false
        timer_started := true
        enabled := enableTargets st.mode
          ((st.custom_rounds.getD ROUNDS).get ⟨st.round_index, h⟩).speakers
        disabled := disableTargets st.mode
          ((st.custom_rounds.getD ROUNDS).get ⟨st.round_index, h⟩).speakers
        warned := decide (((st.custom_rounds.getD ROUNDS).get ⟨st.round_index, h⟩).duration = 3 * 60)
          && decide (tr_end < 0)
        state := { st with time_remaining := tr_end, round_index := st.round_index + 1 } } := by
  unfold start_round
  rw [dif_pos h]

/-- When the sequence is exhausted, `start_round` finalizes and changes
nothing. -/
lemma start_round_done (st : DebateState) (tr_end : Rat)
    (h : ¬ st.round_index < (st.custom_rounds.getD ROUNDS).length) :
    start_round st tr_end =
      { finalized := true, timer_started := false, enabled := [], disabled := [],
        warned := false, state := st } := by
  unfold start_round
  rw [dif_neg h]

/-- Appending to a transcript key and then reading that key yields the old
list with the new utterance at the end. -/
lemma transcriptsGet_append (d : List ((String × String) × List PyStr))
    (k : String × String) (t : PyStr) :
    transcriptsGet (transcriptsAppend d k t) k = transcriptsGet d k ++ [t] := by
  induction d with
  | nil => simp [transcriptsAppend, transcriptsGet]
  | cons e es ih =>
      by_cases he : e.1 = k
      · simp [transcriptsAppend, transcriptsGet, he]
      · simp [transcriptsAppend, transcriptsGet, he, ih]

/-- Python indexing with a nonnegative index out of range raises. -/
lemma pyGet_nat_oob {α : Type} (l : List α) (n : Nat) (h : l.length ≤ n) :
    pyGet l (n : Int) = none := by
  have h0 : ¬((n : Int) < 0) := Int.not_lt.mpr (Int.ofNat_nonneg n)
  unfold pyGet
  simp only [if_neg h0, Int.toNat_natCast]
  exact List.get?_eq_none.mpr h

/-- Whenever the state's `round_index` is past the end of `ROUNDS` — as it is
while the final round is being scored — `evaluate_round` raises. -/
lemma evaluate_round_oob (a1 a2 a3 : Option EvalOutcome) (rn : String)
    (st : DebateState) (hist : List ScoreRecord)
    (h : ROUNDS.length ≤ st.round_index) :
    evaluate_round a1 a2 a3 rn st hist = none :=
  evaluate_round_raises a1 a2 a3 rn st hist (pyGet_nat_oob ROUNDS st.round_index h)

/-- Closed form of a successful `score_round`. -/
lemma score_round_eq (a1 a2 a3 : Option EvalOutcome) (st : DebateState)
    (hist : List ScoreRecord) (r : RoundSpec) (s1 s2 : Int) (hist2 : List ScoreRecord)
    (hpg : pyGet ROUNDS ((st.round_index : Int) - 1) = some r)
    (hev : evaluate_round a1 a2 a3 r.name st hist = some (s1, s2, hist2)) :
    score_round a1 a2 a3 st hist =
      some ({ st with scores_T1 := st.scores_T1 ++ [s1], scores_T2 := st.scores_T2 ++ [s2] },
            hist2,
            ⟨r.name, s1, s2, ((hist2.getLast?).map ScoreRecord.explanation).getD ""⟩) := by
  unfold score_round
  simp only [hpg, hev]

/-- Scoring the last round of the default sequence always raises: the
completed round resolves to `final_focus_d`, but the penalty check inside
`evaluate_round` indexes `ROUNDS` at the already-incremented `round_index`. -/
lemma score_round_last_raises (a1 a2 a3 : Option EvalOutcome) (st : DebateState)
    (hist : List ScoreRecord) (h : st.round_index = ROUNDS.length) :
    score_round a1 a2 a3 st hist = none := by
  have hpg : pyGet ROUNDS ((st.round_index : Int) - 1) =
      some ⟨"final_focus_d", 2 * 60, .one .D⟩ := by rw [h]; decide
  have hev : evaluate_round a1 a2 a3
      (RoundSpec.name ⟨"final_focus_d", 2 * 60, .one .D⟩) st hist = none :=
    evaluate_round_oob a1 a2 a3 _ st hist (le_of_eq h.symm)
  unfold score_round
  simp only [hpg, hev]

/-- The enable loop and the two disable branches hit the same debaters. -/
lemma enableTargets_eq_disableTargets (mode : String) (sp : Speakers) :
    enableTargets mode sp = disableTargets mode sp := by
  cases sp with
  | one d => simp [enableTargets, disableTargets, speakerItems, List.filter_singleton,
      Bool.cond_eq_ite]
  | many l => rfl

/-- Case analysis of the winner string computed from two averages. -/
lemma winner_cases (x y : Rat) :
    ((if x > y then "T1" else if y > x then "T2" else "Tie") = "T1" ↔ y < x) ∧
    ((if x > y then "T1" else if y > x then "T2" else "Tie") = "T2" ↔ x < y) ∧
    ((if x > y then "T1" else if y > x then "T2" else "Tie") = "Tie" ↔ x = y) := by
  rcases lt_trichotomy x y with h | h | h
  · rw [if_neg (not_lt.mpr h.le), if_pos h]
    exact ⟨iff_of_false (by decide) (asymm h), iff_of_true rfl h,
      iff_of_false (by decide) (ne_of_lt h)⟩
  · rw [if_neg (by rw [h]; exact lt_irrefl y), if_neg (by rw [h]; exact lt_irrefl y)]
    exact ⟨iff_of_false (by decide) (by rw [h]; exact lt_irrefl y),
      iff_of_false (by decide) (by rw [h]; exact lt_irrefl y), iff_of_true rfl h⟩
  · rw [if_pos h]
    exact ⟨iff_of_true rfl h, iff_of_false (by decide) (asymm h),
      iff_of_false (by decide) (ne_of_gt h)⟩

/-! Claim theorems. -/

/-- C1: the claim requires that a shortfall penalty of `floor(|tr| / 30)`
be applied whenever the just-completed round's nominal duration is 180 s
and `time_remaining` is negative. The code instead tests the duration of
`ROUNDS[round_index]` after the increment, i.e. of the next round: after
completing the 180-second `grand_crossfire` (round 8) or `crossfire_ac`
(round 2) with `time_remaining = -45`, no penalty is applied (scores stay
25), contradicting the claimed 1-point deduction. When the slot consulted
does happen to hold 180 s (round_index 6), the claimed arithmetic holds:
-45 deducts 1 point and appends the note, and -15 deducts 0. -/
theorem C1_shortfall_penalty_wrong_round :
    ((evaluate_round none none none "grand_crossfire" (mkState 9 (-45) [] []) []).map
        (fun t => (t.1, t.2.1)) = some (25, 25)) ∧
    ((evaluate_round none none none "crossfire_ac" (mkState 3 (-45) [] []) []).map
        (fun t => (t.1, t.2.1)) = some (25, 25)) ∧
    (evaluate_round none none none "crossfire_bd" (mkState 6 (-45) [] []) [] =
      some (24, 24, [⟨"crossfire_bd", 24, 24,
        "Failed to evaluate round" ++ penaltyNote (|(-45 : Rat)| / 30)⟩])) ∧
    ((evaluate_round none none none "crossfire_bd" (mkState 6 (-15) [] []) []).map
        (fun t => (t.1, t.2.1)) = some (25, 25)) := by
  refine ⟨?_, ?_, ?_, ?_⟩
  · rw [evaluate_round_plain none none none _ _ _ ⟨"final_focus_b", 2 * 60, .one .B⟩
      (by decide) (by decide)]
    rfl
  · rw [evaluate_round_plain none none none _ _ _ ⟨"rebuttal_b", 4 * 60, .one .B⟩
      (by decide) (by decide)]
    rfl
  · rw [evaluate_round_penalty none none none _ _ _ ⟨"summary_a", 3 * 60, .one .A⟩ 1
      (by decide) rfl (by decide) (by norm_num [mkState, pyInt]; decide)]
    rfl
  · rw [evaluate_round_penalty none none none _ _ _ ⟨"summary_a", 3 * 60, .one .A⟩ 0
      (by decide) rfl (by decide) (by norm_num [mkState, pyInt]; decide)]
    rfl

/-- C2: every successful `score_round` broadcasts and appends two scores in
[21, 30], appends exactly those scores to the two team lists, and appends
one history record carrying the same scores — for every backend outcome,
including out-of-range values, missing fields, and total failure. -/
theorem C2_scores_clamped (a1 a2 a3 : Option EvalOutcome) (st : DebateState)
    (hist : List ScoreRecord) (st2 : DebateState) (hist2 : List ScoreRecord)
    (msg : ScoresMsg)
    (h : score_round a1 a2 a3 st hist = some (st2, hist2, msg)) :
    (21 ≤ msg.T1_score ∧ msg.T1_score ≤ 30) ∧
    (21 ≤ msg.T2_score ∧ msg.T2_score ≤ 30) ∧
    st2.scores_T1 = st.scores_T1 ++ [msg.T1_score] ∧
    st2.scores_T2 = st.scores_T2 ++ [msg.T2_score] ∧
    ∃ e, hist2 = hist ++ [⟨msg.round, msg.T1_score, msg.T2_score, e⟩] := by
  obtain ⟨r, hpg, hev, hst, hrn⟩ := score_round_some_inv a1 a2 a3 st hist st2 hist2 msg h
  obtain ⟨hb1, hb2, e, hh⟩ := evaluate_round_some_inv a1 a2 a3 r.name st hist _ _ _ hev
  exact ⟨hb1, hb2, by rw [hst], by rw [hst], ⟨e, by rw [hh, hrn]⟩⟩

/-- Witness for C2: a backend answer of 100 and 5 is clamped to 30 and 21. -/
theorem C2_scores_clamped_witness :
    (21 ≤ (⟨"constructive_a", 30, 21, "No explanation provided"⟩ : ScoresMsg).T1_score ∧
      (⟨"constructive_a", 30, 21, "No explanation provided"⟩ : ScoresMsg).T1_score ≤ 30) ∧
    (21 ≤ (⟨"constructive_a", 30, 21, "No explanation provided"⟩ : ScoresMsg).T2_score ∧
      (⟨"constructive_a", 30, 21, "No explanation provided"⟩ : ScoresMsg).T2_score ≤ 30) ∧
    (mkState 1 0 [30] [21]).scores_T1 = (mkState 1 0 [] []).scores_T1 ++
      [(⟨"constructive_a", 30, 21, "No explanation provided"⟩ : ScoresMsg).T1_score] ∧
    (mkState 1 0 [30] [21]).scores_T2 = (mkState 1 0 [] []).scores_T2 ++
      [(⟨"constructive_a", 30, 21, "No explanation provided"⟩ : ScoresMsg).T2_score] ∧
    ∃ e, [(⟨"constructive_a", 30, 21, "No explanation provided"⟩ : ScoreRecord)] =
      [] ++ [⟨(⟨"constructive_a", 30, 21, "No explanation provided"⟩ : ScoresMsg).round,
              (⟨"constructive_a", 30, 21, "No explanation provided"⟩ : ScoresMsg).T1_score,
              (⟨"constructive_a", 30, 21, "No explanation provided"⟩ : ScoresMsg).T2_score, e⟩] :=
  C2_scores_clamped (some ⟨some 100, some 5, none⟩) none none (mkState 1 0 [] []) []
    (mkState 1 0 [30] [21]) [⟨"constructive_a", 30, 21, "No explanation provided"⟩]
    ⟨"constructive_a", 30, 21, "No explanation provided"⟩ (by decide)

/-- C3: the shortfall check of `evaluate_round` indexes the default
sequence at the already-incremented `round_index`. Consequences proved
here: (1) scoring any state whose `round_index` equals the sequence length
— the final round — raises instead of returning scores; (2) `evaluate_round`
raises whenever `round_index` is past the end; (3) after `crossfire_ac`
(180 s, completed round 2) with `time_remaining = -45` no penalty is
applied, while (4) after `rebuttal_d` (240 s, completed round 4) a penalty
is applied — the duration consulted is the following round's. -/
theorem C3_penalty_index_off_by_one :
    (∀ (a1 a2 a3 : Option EvalOutcome) (st : DebateState) (hist : List ScoreRecord),
       st.round_index = ROUNDS.length → score_round a1 a2 a3 st hist = none) ∧
    (∀ (a1 a2 a3 : Option EvalOutcome) (rn : String) (st : DebateState)
       (hist : List ScoreRecord),
       ROUNDS.length ≤ st.round_index → evaluate_round a1 a2 a3 rn st hist = none) ∧
    ((score_round none none none (mkState 3 (-45) [] []) []).map
        (fun t => (t.2.2.round, t.2.2.T1_score, t.2.2.T2_score)) =
      some ("crossfire_ac", 25, 25)) ∧
    ((score_round none none none (mkState 5 (-45) [] []) []).map
        (fun t => (t.2.2.round, t.2.2.T1_score, t.2.2.T2_score)) =
      some ("rebuttal_d", 24, 24)) := by
  refine ⟨score_round_last_raises, evaluate_round_oob, ?_, ?_⟩
  · rw [score_round_eq none none none _ [] ⟨"crossfire_ac", 3 * 60, .many [.A, .C]⟩ 25 25
      [⟨"crossfire_ac", 25, 25, "Failed to evaluate round"⟩] (by decide)
      (by rw [evaluate_round_plain none none none _ _ _ ⟨"rebuttal_b", 4 * 60, .one .B⟩
            (by decide) (by decide)]
          rfl)]
    rfl
  · rw [score_round_eq none none none _ [] ⟨"rebuttal_d", 4 * 60, .one .D⟩ 24 24
      [⟨"rebuttal_d", 24, 24,
        "Failed to evaluate round" ++ penaltyNote (|(-45 : Rat)| / 30)⟩] (by decide)
      (by rw [evaluate_round_penalty none none none _ _ _
            ⟨"crossfire_bd", 3 * 60, .many [.B, .D]⟩ 1 (by decide) rfl (by decide)
            (by norm_num [mkState, pyInt]; decide)]
          rfl)]
    rfl

/-- Witness for C3: the two universally quantified parts applied to the
state reached after the 11th round, whose `round_index` is 11. -/
theorem C3_penalty_index_off_by_one_witness :
    score_round none none none
      (mkState 11 (-30) [25, 25, 25, 25, 25, 25, 25, 25, 25, 25]
        [25, 25, 25, 25, 25, 25, 25, 25, 25, 25]) [] = none ∧
    evaluate_round none none none "final_focus_d"
      (mkState 11 (-30) [25, 25, 25, 25, 25, 25, 25, 25, 25, 25]
        [25, 25, 25, 25, 25, 25, 25, 25, 25, 25]) [] = none :=
  ⟨C3_penalty_index_off_by_one.1 none none none _ [] (by decide),
   C3_penalty_index_off_by_one.2.1 none none none "final_focus_d" _ [] (by decide)⟩

/-- C4: when the backend fails all three attempts on an ordinary round,
`score_round` completes and broadcasts the default scores 25/25 with
explanation "Failed to evaluate round" — but on the final round the same
call raises out of `evaluate_round` and emits nothing, so the claim that
the debate never aborts because of judging failure is broken by the code. -/
theorem C4_backend_failure_fallback :
    (score_round none none none (mkState 1 0 [] []) [] =
      some (mkState 1 0 [25] [25],
            [⟨"constructive_a", 25, 25, "Failed to evaluate round"⟩],
            ⟨"constructive_a", 25, 25, "Failed to evaluate round"⟩)) ∧
    (score_round none none none
      (mkState 11 0 [25, 25, 25, 25, 25, 25, 25, 25, 25, 25]
        [25, 25, 25, 25, 25, 25, 25, 25, 25, 25]) [] = none) := by
  refine ⟨?_, score_round_last_raises none none none _ [] (by decide)⟩
  rw [score_round_eq none none none _ [] ⟨"constructive_a", 4 * 60, .one .A⟩ 25 25
    [⟨"constructive_a", 25, 25, "Failed to evaluate round"⟩] (by decide)
    (by rw [evaluate_round_plain none none none _ _ _ ⟨"constructive_c", 4 * 60, .one .C⟩
          (by decide) (by decide)]
        rfl)]
  rfl

/-- Closed form of a successful `receive_transcript`. -/
lemma receive_transcript_eq (st : DebateState) (speaker : String) (text : PyStr)
    (r : RoundSpec) (hpg : pyGet ROUNDS (st.round_index : Int) = some r) :
    receive_transcript st speaker text =
      some ({ st with transcripts :=
                transcriptsAppend st.transcripts (r.name, speaker) (text.take 1000) },
            ⟨st.room_id, r.name, speaker, text⟩) := by
  unfold receive_transcript
  simp only [hpg]

/-- C5 counterexample: a 1001-character utterance is stored truncated to
1000 characters in the in-memory list, but the record persisted to the
per-round file holds the full 1001-character text, not 1000 as claimed. -/
theorem C5_persisted_untruncated_counterexample :
    ((receive_transcript (mkState 0 0 [] []) "A" (List.replicate 1001 'a')).map
        (fun res => res.2.text.length) = some 1001) ∧
    ((receive_transcript (mkState 0 0 [] []) "A" (List.replicate 1001 'a')).map
        (fun res => res.2.text.length) ≠ some 1000) ∧
    ((receive_transcript (mkState 0 0 [] []) "A" (List.replicate 1001 'a')).map
        (fun res => (transcriptsGet res.1.transcripts ("constructive_a", "A")).map
          List.length) = some [1000]) := by
  rw [receive_transcript_eq (mkState 0 0 [] []) "A" (List.replicate 1001 'a')
    ⟨"constructive_a", 4 * 60, .one .A⟩ (by decide)]
  refine ⟨?_, ?_, ?_⟩
  · simp only [Option.map_some', Option.some.injEq]
    exact List.length_replicate 1001 'a'
  · simp only [Option.map_some', ne_eq, Option.some.injEq, List.length_replicate]
    decide
  · simp only [Option.map_some', Option.some.injEq, mkState]
    rw [transcriptsGet_append]
    simp only [transcriptsGet, List.nil_append, List.map_cons, List.map_nil,
      List.length_take, List.length_replicate]
    norm_num

/-- C5 amended: `receive_transcript` truncates the utterance to its first
1000 characters in the in-memory per-round per-speaker list, while the
persisted per-room per-round record keeps the full untruncated text. -/
theorem C5_truncation_amended (st : DebateState) (speaker : String) (text : PyStr)
    (st2 : DebateState) (rec : TranscriptFileRecord) (r : RoundSpec)
    (hpg : pyGet ROUNDS (st.round_index : Int) = some r)
    (h : receive_transcript st speaker text = some (st2, rec)) :
    transcriptsGet st2.transcripts (r.name, speaker) =
      transcriptsGet st.transcripts (r.name, speaker) ++ [text.take 1000] ∧
    (text.take 1000).length = min 1000 text.length ∧
    rec = ⟨st.room_id, r.name, speaker, text⟩ := by
  rw [receive_transcript_eq st speaker text r hpg] at h
  simp only [Option.some.injEq, Prod.mk.injEq] at h
  obtain ⟨h1, h2⟩ := h
  subst h1; subst h2
  exact ⟨transcriptsGet_append _ _ _, by simp [List.length_take], rfl⟩

/-- Witness for C5: the amended theorem applied to a two-character
utterance arriving in round 0. -/
theorem C5_truncation_amended_witness :
    transcriptsGet (transcriptsAppend [] ("constructive_a", "A")
        (List.take 1000 ['h', 'i'])) ("constructive_a", "A") =
      transcriptsGet ([] : List ((String × String) × List PyStr))
        ("constructive_a", "A") ++ [List.take 1000 ['h', 'i']] ∧
    (List.take 1000 ['h', 'i']).length = min 1000 (['h', 'i'] : PyStr).length ∧
    (⟨"room1", "constructive_a", "A", ['h', 'i']⟩ : TranscriptFileRecord) =
      ⟨"room1", "constructive_a", "A", ['h', 'i']⟩ :=
  C5_truncation_amended (mkState 0 0 [] []) "A" ['h', 'i']
    { mkState 0 0 [] [] with transcripts := transcriptsAppend [] ("constructive_a", "A") (List.take 1000 ['h', 'i']) }
    ⟨"room1", "constructive_a", "A", ['h', 'i']⟩
    ⟨"constructive_a", 4 * 60, .one .A⟩ (by decide) (by decide)

/-- C6: a prep request for an unknown team or with an exhausted budget is
rejected with no state change; otherwise it consumes exactly
`min(available, 120)` seconds. Concretely, from the initial 120-second
budget one request grants 120 s leaving 0, and a second request is then
rejected without change. -/
theorem C6_request_prep (st : DebateState) (team : String) :
    (dictGet st.prep_time team = none →
       request_prep_time st team = (PrepOutcome.invalid_team, st)) ∧
    (∀ a, dictGet st.prep_time team = some a → a ≤ 0 →
       request_prep_time st team = (PrepOutcome.no_prep_remaining, st)) ∧
    (∀ a, dictGet st.prep_time team = some a → 0 < a →
       request_prep_time st team =
         (PrepOutcome.granted (min a (2 * 60)),
          { st with prep_time := dictSet st.prep_time team (a - min a (2 * 60)) })) ∧
    (request_prep_time (mkState 0 0 [] []) "T1" =
       (PrepOutcome.granted 120,
        { mkState 0 0 [] [] with prep_time := [("T1", 0), ("T2", 120)] })) ∧
    (request_prep_time { mkState 0 0 [] [] with prep_time := [("T1", 0), ("T2", 120)] } "T1" =
       (PrepOutcome.no_prep_remaining,
        { mkState 0 0 [] [] with prep_time := [("T1", 0), ("T2", 120)] })) := by
  refine ⟨?_, ?_, ?_, ?_, ?_⟩
  · intro h; unfold request_prep_time; rw [h]
  · intro a ha hle; unfold request_prep_time; simp only [ha, if_pos hle]
  · intro a ha hpos; unfold request_prep_time; simp only [ha, if_neg (not_le.mpr hpos)]
  · unfold request_prep_time
    norm_num [mkState, dictGet, dictSet]
  · unfold request_prep_time
    norm_num [mkState, dictGet]

/-- Witness for C6: an unknown team is rejected unchanged, and a request
from a full budget is granted the 120-second cap. -/
theorem C6_request_prep_witness :
    request_prep_time (mkState 0 0 [] []) "T3" =
      (PrepOutcome.invalid_team, mkState 0 0 [] []) ∧
    request_prep_time (mkState 0 0 [] []) "T1" =
      (PrepOutcome.granted (min 120 (2 * 60)),
       { mkState 0 0 [] [] with prep_time := dictSet (mkState 0 0 [] []).prep_time "T1" (120 - min 120 (2 * 60)) }) :=
  ⟨(C6_request_prep (mkState 0 0 [] []) "T3").1 (by decide),
   (C6_request_prep (mkState 0 0 [] []) "T1").2.2.1 120 (by decide) (by norm_num)⟩

/-- C7: `finalize_scores` computes each team's mean score with 0 for an
empty list, and the winner is the side with the strictly greater mean,
otherwise "Tie"; concretely, scores [25] vs [27] give winner "T2" with
averages 25 and 27, and two empty lists give "Tie" with averages 0 and 0. -/
theorem C7_finalize_winner :
    (∀ st : DebateState,
       (finalize_scores st).T1_avg_score =
         (if st.scores_T1 = [] then 0
          else (st.scores_T1.sum : Rat) / (st.scores_T1.length : Rat)) ∧
       (finalize_scores st).T2_avg_score =
         (if st.scores_T2 = [] then 0
          else (st.scores_T2.sum : Rat) / (st.scores_T2.length : Rat)) ∧
       ((finalize_scores st).winner = "T1" ↔
          (finalize_scores st).T2_avg_score < (finalize_scores st).T1_avg_score) ∧
       ((finalize_scores st).winner = "T2" ↔
          (finalize_scores st).T1_avg_score < (finalize_scores st).T2_avg_score) ∧
       ((finalize_scores st).winner = "Tie" ↔
          (finalize_scores st).T1_avg_score = (finalize_scores st).T2_avg_score)) ∧
    finalize_scores (mkState 1 0 [25] [27]) = ⟨"T2", 25, 27⟩ ∧
    finalize_scores (mkState 0 0 [] []) = ⟨"Tie", 0, 0⟩ := by
  refine ⟨?_, ?_, ?_⟩
  · intro st
    refine ⟨by simp only [finalize_scores, ite_not], by simp only [finalize_scores, ite_not],
      (winner_cases _ _).1, (winner_cases _ _).2.1, (winner_cases _ _).2.2⟩
  · norm_num [finalize_scores, mkState]
  · norm_num [finalize_scores, mkState]

/-- C8: `start_round` with `round_index` at or past the active sequence
length finalizes, starting no timer and leaving `round_index` unchanged;
otherwise it runs the round, starts the timer and increments `round_index`
by exactly one — so `round_index` never exceeds the active length. -/
theorem C8_round_index_monotone (st : DebateState) (tr : Rat)
    (hle : st.round_index ≤ (st.custom_rounds.getD ROUNDS).length) :
    ((start_round st tr).finalized = false →
       (start_round st tr).state.round_index = st.round_index + 1 ∧
       (start_round st tr).timer_started = true) ∧
    ((start_round st tr).finalized = true →
       (start_round st tr).state.round_index = st.round_index ∧
       (start_round st tr).timer_started = false) ∧
    (start_round st tr).state.round_index ≤ (st.custom_rounds.getD ROUNDS).length ∧
    ((st.custom_rounds.getD ROUNDS).length ≤ st.round_index →
       (start_round st tr).finalized = true) := by
  by_cases h : st.round_index < (st.custom_rounds.getD ROUNDS).length
  · rw [start_round_go st tr h]
    exact ⟨fun _ => ⟨rfl, rfl⟩, fun hf => absurd hf (by simp), h,
      fun hge => absurd h (not_lt.mpr hge)⟩
  · rw [start_round_done st tr h]
    exact ⟨fun hf => absurd hf (by simp), fun _ => ⟨rfl, rfl⟩, hle, fun _ => rfl⟩

/-- Witness for C8: starting the very first round of the default sequence. -/
theorem C8_round_index_monotone_witness :
    ((start_round (mkState 0 0 [] []) 0).finalized = false →
       (start_round (mkState 0 0 [] []) 0).state.round_index = 0 + 1 ∧
       (start_round (mkState 0 0 [] []) 0).timer_started = true) ∧
    ((start_round (mkState 0 0 [] []) 0).finalized = true →
       (start_round (mkState 0 0 [] []) 0).state.round_index = 0 ∧
       (start_round (mkState 0 0 [] []) 0).timer_started = false) ∧
    (start_round (mkState 0 0 [] []) 0).state.round_index ≤ ROUNDS.length ∧
    (ROUNDS.length ≤ 0 → (start_round (mkState 0 0 [] []) 0).finalized = true) :=
  C8_round_index_monotone (mkState 0 0 [] []) 0 (by decide)

/-- C9: when a round starts, the targeted enable signal goes to exactly the
round's participants that are team-2 debaters C or D, plus the team-1
debater B exactly when the mode is "single" (so A is never signalled), and
the disable signal on expiry goes to the same set. -/
theorem C9_speaking_signal_targets (st : DebateState) (tr : Rat)
    (h : st.round_index < (st.custom_rounds.getD ROUNDS).length) :
    (start_round st tr).enabled = (start_round st tr).disabled ∧
    (∀ d : Debater, d ∈ (start_round st tr).enabled ↔
       (d ∈ speakerItems ((st.custom_rounds.getD ROUNDS).get ⟨st.round_index, h⟩).speakers ∧
        ((d = Debater.C ∨ d = Debater.D) ∨ (st.mode = "single" ∧ d = Debater.B)))) := by
  rw [start_round_go st tr h]
  refine ⟨enableTargets_eq_disableTargets _ _, fun d => ?_⟩
  simp [enableTargets, List.mem_filter, debaterEligible]

/-- Witness for C9: the `crossfire_ac` round in multi mode enables and
disables the same set, which contains C but not the team-1 speaker A. -/
theorem C9_speaking_signal_targets_witness :
    (start_round (mkState 2 0 [] []) 0).enabled = (start_round (mkState 2 0 [] []) 0).disabled ∧
    Debater.C ∈ (start_round (mkState 2 0 [] []) 0).enabled ∧
    Debater.A ∉ (start_round (mkState 2 0 [] []) 0).enabled := by
  have h := C9_speaking_signal_targets (mkState 2 0 [] []) 0 (by decide)
  refine ⟨h.1, (h.2 Debater.C).mpr (by decide), fun hA => ?_⟩
  have := (h.2 Debater.A).mp hA
  revert this
  decide

/-- C10: a completed `score_round` that follows a non-finalizing
`start_round` appends exactly one score to each team's list, keeping the
two lists of equal length, and that common length stays at most the number
of completed rounds (the post-increment `round_index`). -/
theorem C10_score_list_lengths (a1 a2 a3 : Option EvalOutcome) (st : DebateState)
    (tr : Rat) (hist : List ScoreRecord) (st2 : DebateState)
    (hist2 : List ScoreRecord) (msg : ScoresMsg)
    (hlen : st.scores_T1.length = st.scores_T2.length)
    (hcomp : st.scores_T1.length ≤ st.round_index)
    (hrun : (start_round st tr).finalized = false)
    (hscore : score_round a1 a2 a3 (start_round st tr).state hist = some (st2, hist2, msg)) :
    st2.scores_T1.length = st2.scores_T2.length ∧
    st2.scores_T1 = st.scores_T1 ++ [msg.T1_score] ∧
    st2.scores_T2 = st.scores_T2 ++ [msg.T2_score] ∧
    st2.scores_T1.length = st.scores_T1.length + 1 ∧
    st2.scores_T1.length ≤ st2.round_index := by
  by_cases h : st.round_index < (st.custom_rounds.getD ROUNDS).length
  · rw [start_round_go st tr h] at hscore
    obtain ⟨r, hpg, hev, hst2, hrn⟩ := score_round_some_inv a1 a2 a3 _ hist st2 hist2 msg hscore
    subst hst2
    refine ⟨?_, rfl, rfl, ?_, ?_⟩
    · simp [hlen]
    · simp
    · simp only [List.length_append, List.length_cons, List.length_nil]
      omega
  · rw [start_round_done st tr h] at hrun
    exact absurd hrun (by simp)

/-- Witness for C10: the first round of the default sequence, scored after
a three-failure backend run, extends both lists from length 0 to 1. -/
theorem C10_score_list_lengths_witness :
    (mkState 1 0 [25] [25]).scores_T1.length = (mkState 1 0 [25] [25]).scores_T2.length ∧
    (mkState 1 0 [25] [25]).scores_T1 = (mkState 0 0 [] []).scores_T1 ++
      [(⟨"constructive_a", 25, 25, "Failed to evaluate round"⟩ : ScoresMsg).T1_score] ∧
    (mkState 1 0 [25] [25]).scores_T2 = (mkState 0 0 [] []).scores_T2 ++
      [(⟨"constructive_a", 25, 25, "Failed to evaluate round"⟩ : ScoresMsg).T2_score] ∧
    (mkState 1 0 [25] [25]).scores_T1.length = (mkState 0 0 [] []).scores_T1.length + 1 ∧
    (mkState 1 0 [25] [25]).scores_T1.length ≤ (mkState 1 0 [25] [25]).round_index :=
  C10_score_list_lengths none none none (mkState 0 0 [] []) 0 []
    (mkState 1 0 [25] [25]) [⟨"constructive_a", 25, 25, "Failed to evaluate round"⟩]
    ⟨"constructive_a", 25, 25, "Failed to evaluate round"⟩
    rfl (by decide) (by decide) (by decide)

end DebateArena
